import Mathlib

/-!
Shallow embedding of `src/streamlit_dashboard.py` (a Streamlit dashboard over
precomputed CSV/JSON/npy files) and verification of its specification claims.

Modelling conventions:
* Scalar numbers coming from `json.load` / `pandas.read_csv` are `JNum`:
  either a Python `int` or a Python `float` holding a finite decimal value
  `m / 10^e` (the exact values appearing in the data contract are short
  decimals, for which Python's shortest-repr float printing coincides with
  printing the decimal itself).
* `st.*` rendering calls are modelled as emitting `Widget` values in program
  order; Python exceptions (`KeyError` from dict lookups, Streamlit's media
  error from `st.image` on a missing file) are modelled by `Except String`.
* The filesystem is a record saying, for each file the program reads, whether
  reading/parsing it succeeds and with what contents.  `load_dashboard_data`'s
  `try/except` returning `None` is modelled by `Option Bundle`.
-/

set_option autoImplicit false

deriving instance DecidableEq for Except

namespace TanaDashboard

/-- A scalar number as produced by `json.load` / pandas: a Python `int`, or a
Python `float` whose value is the finite decimal `m / 10 ^ e`. -/
inductive JNum where
  | jint : Int → JNum
  | jfloat : Int → Nat → JNum
deriving DecidableEq, Repr

/-- View a `JNum` as a scaled integer `(m, e)` with value `m / 10 ^ e`. -/
def JNum.toScaled : JNum → Int × Nat
  | .jint n => (n, 0)
  | .jfloat m e => (m, e)

/-- Decimal digit character. -/
def digitChar (d : Nat) : Char := Char.ofNat (48 + d)

/-- Decimal digits of `n`, least significant first; fuel-driven
(`fuel ≥ number of digits` suffices, and `natDigitsRev (n+1) n` always does). -/
def natDigitsRev : Nat → Nat → List Nat
  | 0, _ => []
  | fuel + 1, n => if n < 10 then [n] else n % 10 :: natDigitsRev fuel (n / 10)

/-- Decimal string of a natural number. -/
def natStr (n : Nat) : String :=
  ⟨((natDigitsRev (n + 1) n).map digitChar).reverse⟩

/-- Decimal string of an integer (Python `str`/`repr` of an `int`). -/
def intStr (n : Int) : String :=
  (if n < 0 then "-" else "") ++ natStr n.natAbs

/-- Insert `,` every three characters, input and output least significant
digit first (helper for Python's `,` format grouping). -/
def commasRev : List Char → List Char
  | a :: b :: c :: d :: rest => a :: b :: c :: ',' :: commasRev (d :: rest)
  | l => l

/-- Thousands-separated decimal string of a natural number. -/
def commaSep (n : Nat) : String :=
  ⟨(commasRev (natStr n).data.reverse).reverse⟩

/-- Round-half-even of the rational `m / d` (for `d > 0`): the rounding used
by Python's fixed-point `format` on exact values. -/
def rhe (m d : Int) : Int :=
  let f := Int.fdiv m d
  let r := m - d * f
  if 2 * r < d then f
  else if 2 * r > d then f + 1
  else if f % 2 = 0 then f else f + 1

/-- Python `f"{x:,.0f}"`: round to an integer (half-even) and group the digits
in thousands. -/
def fmtComma0f (x : JNum) : String :=
  let p := x.toScaled
  let n := rhe p.1 ((10 : Int) ^ p.2)
  (if n < 0 then "-" else "") ++ commaSep n.natAbs

/-- Strip trailing decimal zeros of `(m, e)` down to at least one fractional
digit (Python float repr prints the shortest form, keeping one digit after
the point). -/
def stripz : Int → Nat → Int × Nat
  | m, 0 => (m, 0)
  | m, 1 => (m, 1)
  | m, e + 2 => if m % 10 = 0 then stripz (m / 10) (e + 1) else (m, e + 2)

/-- Left-pad a character list to length `n`. -/
def leftPad (c : Char) (n : Nat) (l : List Char) : List Char :=
  List.replicate (n - l.length) c ++ l

/-- Insert a decimal point `e` places from the right (padding with zeros so
an integer part exists). -/
def insertPoint (l : List Char) (e : Nat) : List Char :=
  let l' := leftPad '0' (e + 1) l
  l'.take (l'.length - e) ++ '.' :: l'.drop (l'.length - e)

/-- Python `f"{x}"` / `str(x)` of a scalar: `int`s print their digits,
`float`s print their (finite-decimal) value with at least one fractional
digit. -/
def pyStr : JNum → String
  | .jint n => intStr n
  | .jfloat m e =>
    let p := stripz m e
    if p.2 = 0 then intStr p.1 ++ ".0"
    else (if p.1 < 0 then "-" else "") ++ ⟨insertPoint (natStr p.1.natAbs).data p.2⟩

/-- Python `f"{x/1e6:.1f}"`: divide by one million and print with one
fractional digit (half-even rounding). -/
def fmtDivMillion1f (x : JNum) : String :=
  let p := x.toScaled
  let n := rhe (p.1 * 10) ((10 : Int) ^ (p.2 + 6))
  (if n < 0 then "-" else "") ++ natStr (n.natAbs / 10) ++ "." ++ natStr (n.natAbs % 10)

-- Sanity checks of the format functions against Python's behaviour on the
-- values the spec exercises.
example : natStr 1160 = "1160" := by decide
example : commaSep 1160 = "1,160" := by decide
example : fmtComma0f (.jint 1160) = "1,160" := by decide
example : fmtComma0f (.jfloat 11605 1) = "1,160" := by decide
example : pyStr (.jfloat (-17) 1) = "-1.7" := by decide
example : pyStr (.jfloat 150 1) = "15.0" := by decide
example : pyStr (.jfloat 5 2) = "0.05" := by decide
example : pyStr (.jint 3068) = "3068" := by decide
example : fmtDivMillion1f (.jint 15000000) = "15.0" := by decide
example : fmtDivMillion1f (.jint 15049999) = "15.0" := by decide
example : fmtDivMillion1f (.jint (-250000)) = "-0.2" := by decide

/-! ## Data model (§3 of the spec, as loaded by `load_dashboard_data`) -/

/-- One row of `water_extent_timeseries.csv`. -/
structure WaterRow where
  year : Int
  water_extent_km2 : JNum
  change_percent : JNum
deriving DecidableEq, Repr

/-- One row of `seasonal_patterns.csv`. -/
structure SeasonalRow where
  year : Int
  month : Int
  water_frequency : JNum
deriving DecidableEq, Repr

/-- One row of `lake_comparison.csv`. -/
structure LakeRow where
  name : String
  area_2020 : JNum
  area_2024 : JNum
  change : JNum
  trend : String
deriving DecidableEq, Repr

/-- The three 2D numeric grids loaded from the `.npy` files
(`spatial_grid` entry of the bundle). -/
structure SpatialGrid where
  lons : List (List JNum)
  lats : List (List JNum)
  water_freq : List (List JNum)
deriving DecidableEq, Repr

/-- The dict returned by `load_dashboard_data` on success.  `metrics` and
`insights` are JSON objects, modelled as association lists (the loader never
inspects their keys). -/
structure Bundle where
  water_timeseries : List WaterRow
  seasonal_data : List SeasonalRow
  lake_comparison : List LakeRow
  metrics : List (String × JNum)
  insights : List (String × List String)
  spatial_grid : SpatialGrid
deriving DecidableEq, Repr

/-- The files read by the program, each CSV/JSON/npy field being `some`
parsed-contents when the file exists and parses, `none` when reading or
parsing raises (the two cases `load_dashboard_data` catches alike).
`compare_png` records only whether `compare.png` exists, since `st.image`
uses it unparsed. -/
structure FileSystem where
  water_ts_csv : Option (List WaterRow)
  seasonal_csv : Option (List SeasonalRow)
  lakes_csv : Option (List LakeRow)
  metrics_json : Option (List (String × JNum))
  insights_json : Option (List (String × List String))
  lon_npy : Option (List (List JNum))
  lat_npy : Option (List (List JNum))
  freq_npy : Option (List (List JNum))
  compare_png : Bool
deriving DecidableEq, Repr

/-- `load_dashboard_data` (lines 38–66): reads the eight data files in
program order inside one `try`; any failure is caught and `None` is
returned.  The contents are not validated beyond parsing — in particular the
JSON objects' keys are not checked. -/
def load_dashboard_data (fs : FileSystem) : Option Bundle :=
  match fs.water_ts_csv with
  | none => none
  | some water_ts =>
  match fs.seasonal_csv with
  | none => none
  | some seasonal =>
  match fs.lakes_csv with
  | none => none
  | some lakes_comp =>
  match fs.metrics_json with
  | none => none
  | some metrics =>
  match fs.insights_json with
  | none => none
  | some insights =>
  match fs.lon_npy with
  | none => none
  | some lons =>
  match fs.lat_npy with
  | none => none
  | some lats =>
  match fs.freq_npy with
  | none => none
  | some water_freq =>
  some { water_timeseries := water_ts
         seasonal_data := seasonal
         lake_comparison := lakes_comp
         metrics := metrics
         insights := insights
         spatial_grid := { lons := lons, lats := lats, water_freq := water_freq } }

/-! ## Rendered output -/

/-- One rendered Streamlit element, in emission order.  Chart widgets record
the data series handed to plotly; `metric` is `st.metric(label, value)` and
`metricDelta` the three-argument form. -/
inductive Widget where
  | subheader (s : String)
  | markdown (s : String)
  | image (path : String)
  | lineChart (title : String) (points : List (Int × JNum))
  | dualAxisChart (title : String) (line : List (Int × JNum)) (bars : List (Int × JNum))
  | groupedBarChart (title : String) (rows : List (String × JNum × JNum))
  | coloredBarChart (title : String) (rows : List (String × JNum × String))
  | metric (label : String) (value : String)
  | metricDelta (label : String) (value : String) (delta : String)
  | table (columns : List String) (rows : List (List String))
  | info (s : String)
  | success (s : String)
  | warning (s : String)
deriving DecidableEq, Repr

/-- The `st.metric(label, value)` widgets of a render, in order. -/
def plainMetrics (ws : List Widget) : List (String × String) :=
  ws.filterMap fun w =>
    match w with
    | .metric l v => some (l, v)
    | _ => none

/-- The `st.metric(label, value, delta)` widgets of a render, in order. -/
def deltaMetrics (ws : List Widget) : List (String × String × String) :=
  ws.filterMap fun w =>
    match w with
    | .metricDelta l v d => some (l, v, d)
    | _ => none

/-- The `px.line` charts of a render, in order. -/
def lineChartsOf (ws : List Widget) : List (String × List (Int × JNum)) :=
  ws.filterMap fun w =>
    match w with
    | .lineChart t pts => some (t, pts)
    | _ => none

/-- The dual-axis (`make_subplots` + secondary_y) charts of a render. -/
def dualChartsOf (ws : List Widget) : List (String × List (Int × JNum) × List (Int × JNum)) :=
  ws.filterMap fun w =>
    match w with
    | .dualAxisChart t l b => some (t, l, b)
    | _ => none

/-- The rows of all `st.dataframe` tables of a render. -/
def tableRowsOf (ws : List Widget) : List (List String) :=
  (ws.filterMap fun w =>
    match w with
    | .table _ rows => some rows
    | _ => none).flatten

/-! ## View routines -/

/-- The six metric keys the Overview view reads from `metrics` (§6 required
fields of `metrics.json`). -/
def requiredMetricKeys : List String :=
  ["current_water_extent", "peak_water_extent", "percent_decline_since_1960",
   "annual_change_rate", "population_impacted", "economic_impact_million_usd"]

/-- The four insight keys the Management Insights view reads (§6 required
fields of `insights.json`). -/
def requiredInsightKeys : List String :=
  ["key_findings", "management_recommendations", "primary_causes",
   "de_africa_advantages"]

/-- The widgets `show_overview` emits once the image call and the six metric
lookups have succeeded (lines 106–145). -/
def overviewWidgets (cw pk pd acr pop eco : JNum) (data : Bundle) : List Widget :=
  [ .subheader "🌍 Lake Tana Water Monitoring",
    .image "compare.png",
    .subheader "📊 Water Extent Trend (2020-2024)",
    .lineChart "Annual Water Extent"
      (data.water_timeseries.map fun r => (r.year, r.water_extent_km2)),
    .subheader "📈 Key Metrics",
    .metric "Current Water Area" (pyStr cw ++ " km²"),
    .metric "Historical Peak" (fmtComma0f pk ++ " km²"),
    .metric "Historical Change" (pyStr pd ++ "%"),
    .metric "Annual Change Rate" (pyStr acr ++ "%"),
    .metric "Population Impacted" (fmtDivMillion1f pop ++ "M"),
    .metric "Economic Impact" ("$" ++ pyStr eco ++ "M"),
    .subheader "⚠️ Recent Alerts",
    .markdown "Dry season water levels within normal range",
    .markdown "Rainy season onset delayed by 10 days" ]

/-- `show_overview` (lines 102–145).  Widgets in execution order: the first
column (reference image, annual-extent line chart) runs before the second
(six `st.metric` widgets, two advisory banners).  `st.image("compare.png")`
raises when the file is missing; each `metrics[...]` subscript raises
`KeyError` when the key is absent. -/
def show_overview (fs : FileSystem) (data : Bundle) : Except String (List Widget) :=
  if fs.compare_png then
    match data.metrics.lookup "current_water_extent" with
    | none => .error "KeyError: current_water_extent"
    | some cw =>
    match data.metrics.lookup "peak_water_extent" with
    | none => .error "KeyError: peak_water_extent"
    | some pk =>
    match data.metrics.lookup "percent_decline_since_1960" with
    | none => .error "KeyError: percent_decline_since_1960"
    | some pd =>
    match data.metrics.lookup "annual_change_rate" with
    | none => .error "KeyError: annual_change_rate"
    | some acr =>
    match data.metrics.lookup "population_impacted" with
    | none => .error "KeyError: population_impacted"
    | some pop =>
    match data.metrics.lookup "economic_impact_million_usd" with
    | none => .error "KeyError: economic_impact_million_usd"
    | some eco =>
    .ok (overviewWidgets cw pk pd acr pop eco data)
  else
    .error "MediaFileStorageError: Error opening compare.png"

/-- `show_time_series` (lines 147–195).  All three tab bodies execute in
order; tab 3 ("Statistical Analysis") emits nothing.  The three Trend
Analysis metrics are string literals in the source, and the Seasonal tab
filters `seasonal_data` to `year == 2024`. -/
def show_time_series (data : Bundle) : List Widget :=
  [ .subheader "📈 Detailed Time Series Analysis",
    .dualAxisChart "Water Extent with Annual Change Percentage"
      (data.water_timeseries.map fun r => (r.year, r.water_extent_km2))
      (data.water_timeseries.map fun r => (r.year, r.change_percent)),
    .subheader "Trend Analysis",
    .metric "5-Year Change" "+2.2%",
    .metric "Average Annual Change" "+0.4%",
    .metric "Stability Index" "High",
    .lineChart "Seasonal Water Frequency Pattern (2024)"
      ((data.seasonal_data.filter fun r => r.year == 2024).map
        fun r => (r.month, r.water_frequency)),
    .metricDelta "Peak Season" "September" "Main rainy season",
    .metricDelta "Lowest Season" "June" "Pre-rainy season" ]

/-- The column order of the `lake_comparison` dataframe. -/
def lakeColumns : List String := ["name", "area_2020", "area_2024", "change", "trend"]

/-- One row of the display copy after the three column assignments of
lines 214–216: `f"{x:,.0f} km²"` on both areas, `f"{x}%"` on change. -/
def displayLakeRow (r : LakeRow) : List String :=
  [ r.name,
    fmtComma0f r.area_2020 ++ " km²",
    fmtComma0f r.area_2024 ++ " km²",
    pyStr r.change ++ "%",
    r.trend ]

/-- `show_regional_comparison` (lines 197–218), with the data bundle
threaded explicitly to expose its state effect.  Line 213
(`display_df = data['lake_comparison'].copy()`) makes the column
assignments of lines 214–216 act on an independent copy, so the bundle the
routine leaves behind is the one it received. -/
def show_regional_comparison (data : Bundle) : List Widget × Bundle :=
  let display_df := data.lake_comparison.map displayLakeRow
  ( [ .subheader "🏔️ Ethiopian Lakes Comparison",
      .groupedBarChart "Water Extent Comparison (2020 vs 2024)"
        (data.lake_comparison.map fun r => (r.name, r.area_2020, r.area_2024)),
      .coloredBarChart "Percentage Change (2020-2024)"
        (data.lake_comparison.map fun r => (r.name, r.change, r.trend)),
      .subheader "Detailed Comparison Table",
      .table lakeColumns display_df ],
    data )

/-- The widgets `show_management_insights` emits once its four lookups have
succeeded (lines 225–241). -/
def insightWidgets (findings recs causes advantages : List String) : List Widget :=
  [Widget.subheader "🔍 Key Findings"]
    ++ findings.map (fun f => Widget.info ("• " ++ f))
    ++ [Widget.subheader "🎯 Management Recommendations"]
    ++ recs.map (fun r => Widget.success ("✓ " ++ r))
    ++ [Widget.subheader "🌡️ Primary Causes"]
    ++ causes.map (fun c => Widget.warning ("⚠ " ++ c))
    ++ [Widget.subheader "🛰️ DE Africa Advantages"]
    ++ advantages.map (fun a => Widget.markdown ("🌟 " ++ a))

/-- `show_management_insights` (lines 220–241).  Column 1 (key findings,
recommendations) executes before column 2 (causes, advantages); each
`insights[...]` subscript raises `KeyError` when absent. -/
def show_management_insights (data : Bundle) : Except String (List Widget) :=
  match data.insights.lookup "key_findings" with
  | none => .error "KeyError: key_findings"
  | some findings =>
  match data.insights.lookup "management_recommendations" with
  | none => .error "KeyError: management_recommendations"
  | some recs =>
  match data.insights.lookup "primary_causes" with
  | none => .error "KeyError: primary_causes"
  | some causes =>
  match data.insights.lookup "de_africa_advantages" with
  | none => .error "KeyError: de_africa_advantages"
  | some advantages =>
  .ok (insightWidgets findings recs causes advantages)

/-! ## Top-level dispatch (`main`, lines 68–100) -/

/-- The view-mode selectbox values, in order. -/
inductive ViewMode where
  | overview
  | timeSeries
  | comparison
  | insightsView
deriving DecidableEq, Repr

/-- The region-focus selectbox values, in order. -/
inductive Region where
  | lakeTana
  | lakeAbaya
  | lakeChamo
  | comparativeView
deriving DecidableEq, Repr

/-- The `if/elif` chain of lines 89–96: exactly one view routine runs for
each selection. -/
def renderView (fs : FileSystem) (data : Bundle) : ViewMode → Except String (List Widget)
  | .overview => show_overview fs data
  | .timeSeries => .ok (show_time_series data)
  | .comparison => .ok (show_regional_comparison data).1
  | .insightsView => show_management_insights data

/-- Outcome of one run of `main`: the load failed (`st.error` then `return`,
before any view), the selected view rendered these widgets, or the selected
view raised (Streamlit displays the exception; page chrome such as headers
and the sidebar is not modelled). -/
inductive RenderResult where
  | loadError
  | rendered (ws : List Widget)
  | raised (msg : String)
deriving DecidableEq, Repr

/-- `main` (lines 68–100): load (memoized), bail out on `None`, otherwise
dispatch on the view selection.  `selected_region` (lines 84–87) is read
from the sidebar but never consulted afterwards. -/
def main (fs : FileSystem) (view : ViewMode) (region : Region) : RenderResult :=
  match load_dashboard_data fs with
  | none => .loadError
  | some data =>
    match renderView fs data view with
    | .ok ws => .rendered ws
    | .error e => .raised e

/-! ## Concrete fixtures

A small filesystem satisfying the whole file contract, used for witnesses
and counterexamples.  The numbers are the ones the spec's examples use. -/

/-- Water-extent time series fixture (spec §8 example years/extents). -/
def waterRowsGood : List WaterRow :=
  [ ⟨2020, .jint 3000, .jfloat 0 1⟩,
    ⟨2021, .jint 3050, .jfloat 17 1⟩,
    ⟨2022, .jint 3010, .jfloat (-13) 1⟩,
    ⟨2023, .jint 3070, .jfloat 20 1⟩,
    ⟨2024, .jint 3068, .jfloat (-1) 1⟩ ]

/-- Seasonal fixture: three 2024 rows and one 2023 row. -/
def seasonalRowsGood : List SeasonalRow :=
  [ ⟨2023, 12, .jfloat 81 1⟩,
    ⟨2024, 1, .jfloat 82 1⟩,
    ⟨2024, 6, .jfloat 74 1⟩,
    ⟨2024, 9, .jfloat 95 1⟩ ]

/-- Lake-comparison fixture, containing the spec's Lake Abaya row. -/
def lakeRowsGood : List LakeRow :=
  [ ⟨"Lake Tana", .jint 3080, .jint 3068, .jfloat (-4) 1, "stable"⟩,
    ⟨"Lake Abaya", .jint 1160, .jint 1140, .jfloat (-17) 1, "declining"⟩,
    ⟨"Lake Chamo", .jint 317, .jint 310, .jfloat (-22) 1, "declining"⟩ ]

/-- Metrics fixture with all six required keys (spec §8 example values). -/
def metricsGood : List (String × JNum) :=
  [ ("current_water_extent", .jint 3068),
    ("peak_water_extent", .jint 3600),
    ("percent_decline_since_1960", .jfloat (-148) 1),
    ("annual_change_rate", .jfloat 1 1),
    ("population_impacted", .jint 15000000),
    ("economic_impact_million_usd", .jint 250) ]

/-- Insights fixture with all four required keys. -/
def insightsGood : List (String × List String) :=
  [ ("key_findings", ["Water extent stable over 2020-2024"]),
    ("management_recommendations", ["Continue monitoring"]),
    ("primary_causes", ["Seasonal rainfall variation"]),
    ("de_africa_advantages", ["Free continental WOfS coverage"]) ]

/-- A 1×1 numeric grid for the npy fixtures. -/
def gridGood : List (List JNum) := [[.jfloat 5 1]]

/-- A filesystem where every required file is present and parses. -/
def fsGood : FileSystem :=
  { water_ts_csv := some waterRowsGood
    seasonal_csv := some seasonalRowsGood
    lakes_csv := some lakeRowsGood
    metrics_json := some metricsGood
    insights_json := some insightsGood
    lon_npy := some gridGood
    lat_npy := some gridGood
    freq_npy := some gridGood
    compare_png := true }

/-- The bundle `load_dashboard_data` produces from `fsGood`. -/
def bGood : Bundle :=
  { water_timeseries := waterRowsGood
    seasonal_data := seasonalRowsGood
    lake_comparison := lakeRowsGood
    metrics := metricsGood
    insights := insightsGood
    spatial_grid := { lons := gridGood, lats := gridGood, water_freq := gridGood } }

/-- `fsGood`, except that `compare.png` is missing. -/
def fsNoPng : FileSystem := { fsGood with compare_png := false }

example : load_dashboard_data fsGood = some bGood := rfl

/-! ## Shared lemmas -/

/-- The comparison view shows exactly one table: the display copy of
`lake_comparison`, row by row. -/
lemma tableRowsOf_comparison (b : Bundle) :
    tableRowsOf (show_regional_comparison b).1 = b.lake_comparison.map displayLakeRow := by
  simp [tableRowsOf, show_regional_comparison]

/-- A successful load forces every loader-read file to be present. -/
lemma load_isSome_of_eq_some (fs : FileSystem) (b : Bundle)
    (h : load_dashboard_data fs = some b) :
    fs.water_ts_csv.isSome ∧ fs.seasonal_csv.isSome ∧ fs.lakes_csv.isSome ∧
    fs.metrics_json.isSome ∧ fs.insights_json.isSome ∧ fs.lon_npy.isSome ∧
    fs.lat_npy.isSome ∧ fs.freq_npy.isSome := by
  unfold load_dashboard_data at h
  rcases hw : fs.water_ts_csv with _ | w <;> rw [hw] at h
  · simp at h
  rcases hs : fs.seasonal_csv with _ | s <;> rw [hs] at h
  · simp at h
  rcases hl : fs.lakes_csv with _ | l <;> rw [hl] at h
  · simp at h
  rcases hm : fs.metrics_json with _ | m <;> rw [hm] at h
  · simp at h
  rcases hi : fs.insights_json with _ | i <;> rw [hi] at h
  · simp at h
  rcases ho : fs.lon_npy with _ | o <;> rw [ho] at h
  · simp at h
  rcases ha : fs.lat_npy with _ | a <;> rw [ha] at h
  · simp at h
  rcases hf : fs.freq_npy with _ | f <;> rw [hf] at h
  · simp at h
  simp

/-! ## Claims -/

/-- C3: for every filesystem and every view-mode selection, two runs of
`main` that differ only in the region-focus selection produce identical
rendered output — `selected_region` is read (lines 84–87) but never
consulted. -/
theorem C3_region_has_no_effect (fs : FileSystem) (v : ViewMode) (r r' : Region) :
    main fs v r = main fs v r' := rfl

/-- C5: rendering the Regional Comparison view leaves the data bundle
unchanged: the formatting of lines 214–216 is applied to the `.copy()` made
on line 213, so the bundle the view hands back is the loaded one, and in
particular the `lake_comparison` rows keep their load-time values. -/
theorem C5_comparison_preserves_bundle (b : Bundle) :
    (show_regional_comparison b).2 = b ∧
    (show_regional_comparison b).2.lake_comparison = b.lake_comparison :=
  ⟨rfl, rfl⟩

/-- C6: the Annual Trends panel renders one dual-axis chart whose line
series is `(year, water_extent_km2)` and whose bar series is
`(year, change_percent)`, both in loaded order, and its three summary
metrics are the string literals of lines 180–182, independent of the loaded
series. -/
theorem C6_annual_trends_panel (b : Bundle) :
    dualChartsOf (show_time_series b)
      = [("Water Extent with Annual Change Percentage",
          b.water_timeseries.map (fun r => (r.year, r.water_extent_km2)),
          b.water_timeseries.map (fun r => (r.year, r.change_percent)))]
    ∧ plainMetrics (show_time_series b)
      = [("5-Year Change", "+2.2%"), ("Average Annual Change", "+0.4%"),
         ("Stability Index", "High")] :=
  ⟨rfl, rfl⟩

/-- C7: the Seasonal Patterns panel plots exactly the rows of
`seasonal_data` whose year is 2024, as `(month, water_frequency)` points,
and shows exactly the two hard-coded seasonal labels. -/
theorem C7_seasonal_patterns_panel (b : Bundle) :
    lineChartsOf (show_time_series b)
      = [("Seasonal Water Frequency Pattern (2024)",
          (b.seasonal_data.filter fun r => r.year == 2024).map
            fun r => (r.month, r.water_frequency))]
    ∧ deltaMetrics (show_time_series b)
      = [("Peak Season", "September", "Main rainy season"),
         ("Lowest Season", "June", "Pre-rainy season")] :=
  ⟨rfl, rfl⟩

/-- C1 counterexample: `compare.png` is a required file of the file
contract, but when it alone is missing the loader still succeeds and the
Overview view routine executes and raises inside the view — no load error
is reported. -/
theorem C1_counterexample :
    fsNoPng.compare_png = false
    ∧ main fsNoPng ViewMode.overview Region.lakeTana
        = RenderResult.raised "MediaFileStorageError: Error opening compare.png"
    ∧ main fsNoPng ViewMode.overview Region.lakeTana ≠ RenderResult.loadError := by
  refine ⟨rfl, by decide, by decide⟩

/-- C1 amended: for each of the eight files `load_dashboard_data` itself
reads (the three CSVs, the two JSON documents, the three `.npy` grids), a
missing or unparsable file makes the loader return `None`, `main` reports
the load error and returns, and no view routine executes; `compare.png`,
although required by the file contract, is not read at the load boundary. -/
theorem C1_amended_load_boundary (fs : FileSystem) (v : ViewMode) (r : Region)
    (h : fs.water_ts_csv = none ∨ fs.seasonal_csv = none ∨ fs.lakes_csv = none ∨
         fs.metrics_json = none ∨ fs.insights_json = none ∨ fs.lon_npy = none ∨
         fs.lat_npy = none ∨ fs.freq_npy = none) :
    main fs v r = RenderResult.loadError := by
  have hload : load_dashboard_data fs = none := by
    rcases hl : load_dashboard_data fs with _ | b
    · rfl
    · obtain ⟨h1, h2, h3, h4, h5, h6, h7, h8⟩ := load_isSome_of_eq_some fs b hl
      rcases h with h | h | h | h | h | h | h | h <;> simp_all
  simp [main, hload]

/-- C1 witness: with `metrics.json` missing, `main` halts at the load
boundary for every view selection. -/
theorem C1_amended_load_boundary_witness :
    main { fsGood with metrics_json := none } ViewMode.overview Region.lakeTana
      = RenderResult.loadError :=
  C1_amended_load_boundary _ _ _ (by simp [fsGood])

/-- C2 counterexample: on a fully valid bundle the Overview view renders six
`st.metric` widgets (lines 132–139), not eight. -/
theorem C2_counterexample :
    (show_overview fsGood bGood).map (fun ws => (plainMetrics ws).length) = Except.ok 6
    ∧ (show_overview fsGood bGood).map (fun ws => (plainMetrics ws).length) ≠ Except.ok 8 :=
  ⟨by decide, by decide⟩

/-- C2 amended: the Overview view renders a two-column grid of exactly six
labeled scalar metrics taken from the Metrics mapping; with
`current_water_extent = 3068` and `population_impacted = 15000000` it
displays "3068 km²" and "15.0M". -/
theorem C2_amended_six_metrics (fs : FileSystem) (b : Bundle) (pk pd acr eco : JNum)
    (hpng : fs.compare_png = true)
    (h1 : b.metrics.lookup "current_water_extent" = some (JNum.jint 3068))
    (h2 : b.metrics.lookup "peak_water_extent" = some pk)
    (h3 : b.metrics.lookup "percent_decline_since_1960" = some pd)
    (h4 : b.metrics.lookup "annual_change_rate" = some acr)
    (h5 : b.metrics.lookup "population_impacted" = some (JNum.jint 15000000))
    (h6 : b.metrics.lookup "economic_impact_million_usd" = some eco) :
    (show_overview fs b).map plainMetrics
      = Except.ok
          [ ("Current Water Area", "3068 km²"),
            ("Historical Peak", fmtComma0f pk ++ " km²"),
            ("Historical Change", pyStr pd ++ "%"),
            ("Annual Change Rate", pyStr acr ++ "%"),
            ("Population Impacted", "15.0M"),
            ("Economic Impact", "$" ++ pyStr eco ++ "M") ] := by
  have e1 : pyStr (JNum.jint 3068) ++ " km²" = "3068 km²" := by decide
  have e2 : fmtDivMillion1f (JNum.jint 15000000) ++ "M" = "15.0M" := by decide
  simp [show_overview, hpng, h1, h2, h3, h4, h5, h6, overviewWidgets, plainMetrics,
        e1, e2, Except.map]

/-- C2 amended, witnessed on the concrete fixture bundle. -/
theorem C2_amended_six_metrics_witness :
    (show_overview fsGood bGood).map plainMetrics
      = Except.ok
          [ ("Current Water Area", "3068 km²"),
            ("Historical Peak", "3,600 km²"),
            ("Historical Change", "-14.8%"),
            ("Annual Change Rate", "0.1%"),
            ("Population Impacted", "15.0M"),
            ("Economic Impact", "$250M") ] := by
  have h := C2_amended_six_metrics fsGood bGood (.jint 3600) (.jfloat (-148) 1)
      (.jfloat 1 1) (.jint 250) rfl rfl rfl rfl rfl rfl rfl
  exact h.trans (by decide)

/-- C4: every `lake_comparison` row is rendered in the Comparison table with
both area cells formatted by `f"{x:,.0f} km²"` and the change cell by
`f"{x}%"`; on the Lake Abaya row of the spec this yields "1,160 km²",
"1,140 km²" and "-1.7%". -/
theorem C4_comparison_table_formats (b : Bundle) (r : LakeRow)
    (h : r ∈ b.lake_comparison) :
    displayLakeRow r ∈ tableRowsOf (show_regional_comparison b).1
    ∧ displayLakeRow r
        = [r.name, fmtComma0f r.area_2020 ++ " km²", fmtComma0f r.area_2024 ++ " km²",
           pyStr r.change ++ "%", r.trend]
    ∧ displayLakeRow ⟨"Lake Abaya", .jint 1160, .jint 1140, .jfloat (-17) 1, "declining"⟩
        = ["Lake Abaya", "1,160 km²", "1,140 km²", "-1.7%", "declining"] := by
  refine ⟨?_, rfl, by decide⟩
  rw [tableRowsOf_comparison]
  exact List.mem_map_of_mem _ h

/-- C4 witnessed: the formatted Lake Abaya row appears in the table rendered
from the fixture bundle. -/
theorem C4_comparison_table_formats_witness :
    ["Lake Abaya", "1,160 km²", "1,140 km²", "-1.7%", "declining"]
      ∈ tableRowsOf (show_regional_comparison bGood).1 := by
  have h := C4_comparison_table_formats bGood
      ⟨"Lake Abaya", .jint 1160, .jint 1140, .jfloat (-17) 1, "declining"⟩ (by decide)
  exact h.2.2 ▸ h.1

/-- With the image present and the six metric keys found, `show_overview`
succeeds with its full widget list. -/
lemma show_overview_ok (fs : FileSystem) (b : Bundle) (cw pk pd acr pop eco : JNum)
    (hpng : fs.compare_png = true)
    (h1 : b.metrics.lookup "current_water_extent" = some cw)
    (h2 : b.metrics.lookup "peak_water_extent" = some pk)
    (h3 : b.metrics.lookup "percent_decline_since_1960" = some pd)
    (h4 : b.metrics.lookup "annual_change_rate" = some acr)
    (h5 : b.metrics.lookup "population_impacted" = some pop)
    (h6 : b.metrics.lookup "economic_impact_million_usd" = some eco) :
    show_overview fs b = Except.ok (overviewWidgets cw pk pd acr pop eco b) := by
  simp [show_overview, hpng, h1, h2, h3, h4, h5, h6]

/-- With the four insight keys found, `show_management_insights` succeeds
with its full widget list. -/
lemma show_management_insights_ok (b : Bundle) (fd rc cs ad : List String)
    (k1 : b.insights.lookup "key_findings" = some fd)
    (k2 : b.insights.lookup "management_recommendations" = some rc)
    (k3 : b.insights.lookup "primary_causes" = some cs)
    (k4 : b.insights.lookup "de_africa_advantages" = some ad) :
    show_management_insights b = Except.ok (insightWidgets fd rc cs ad) := by
  simp [show_management_insights, k1, k2, k3, k4]

/-- C8: on a valid bundle (successful load, `compare.png` present, all
required JSON keys present), each of the four view-mode selections makes
`main` run exactly the one corresponding view routine, which completes
without raising. -/
theorem C8_dispatch_renders (fs : FileSystem) (b : Bundle) (v : ViewMode) (r : Region)
    (hload : load_dashboard_data fs = some b)
    (hpng : fs.compare_png = true)
    (hm : ∀ k ∈ requiredMetricKeys, (b.metrics.lookup k).isSome)
    (hi : ∀ k ∈ requiredInsightKeys, (b.insights.lookup k).isSome) :
    ∃ ws, renderView fs b v = Except.ok ws ∧ main fs v r = RenderResult.rendered ws := by
  have hrv : ∃ ws, renderView fs b v = Except.ok ws := by
    cases v with
    | overview =>
      obtain ⟨cw, h1⟩ := Option.isSome_iff_exists.mp (hm "current_water_extent" (by decide))
      obtain ⟨pk, h2⟩ := Option.isSome_iff_exists.mp (hm "peak_water_extent" (by decide))
      obtain ⟨pd, h3⟩ :=
        Option.isSome_iff_exists.mp (hm "percent_decline_since_1960" (by decide))
      obtain ⟨acr, h4⟩ := Option.isSome_iff_exists.mp (hm "annual_change_rate" (by decide))
      obtain ⟨pop, h5⟩ := Option.isSome_iff_exists.mp (hm "population_impacted" (by decide))
      obtain ⟨eco, h6⟩ :=
        Option.isSome_iff_exists.mp (hm "economic_impact_million_usd" (by decide))
      exact ⟨_, show_overview_ok fs b cw pk pd acr pop eco hpng h1 h2 h3 h4 h5 h6⟩
    | timeSeries => exact ⟨_, rfl⟩
    | comparison => exact ⟨_, rfl⟩
    | insightsView =>
      obtain ⟨fd, k1⟩ := Option.isSome_iff_exists.mp (hi "key_findings" (by decide))
      obtain ⟨rc, k2⟩ :=
        Option.isSome_iff_exists.mp (hi "management_recommendations" (by decide))
      obtain ⟨cs, k3⟩ := Option.isSome_iff_exists.mp (hi "primary_causes" (by decide))
      obtain ⟨ad, k4⟩ := Option.isSome_iff_exists.mp (hi "de_africa_advantages" (by decide))
      exact ⟨_, show_management_insights_ok b fd rc cs ad k1 k2 k3 k4⟩
  obtain ⟨ws, hws⟩ := hrv
  refine ⟨ws, hws, ?_⟩
  simp [main, hload, hws]

/-- C8 witnessed on the fixture for all four view modes. -/
theorem C8_dispatch_renders_witness :
    (∃ ws, renderView fsGood bGood ViewMode.overview = Except.ok ws ∧
       main fsGood ViewMode.overview Region.lakeTana = RenderResult.rendered ws)
    ∧ (∃ ws, renderView fsGood bGood ViewMode.timeSeries = Except.ok ws ∧
       main fsGood ViewMode.timeSeries Region.lakeTana = RenderResult.rendered ws)
    ∧ (∃ ws, renderView fsGood bGood ViewMode.comparison = Except.ok ws ∧
       main fsGood ViewMode.comparison Region.lakeTana = RenderResult.rendered ws)
    ∧ (∃ ws, renderView fsGood bGood ViewMode.insightsView = Except.ok ws ∧
       main fsGood ViewMode.insightsView Region.lakeTana = RenderResult.rendered ws) :=
  ⟨C8_dispatch_renders fsGood bGood ViewMode.overview Region.lakeTana rfl rfl
      (by decide) (by decide),
   C8_dispatch_renders fsGood bGood ViewMode.timeSeries Region.lakeTana rfl rfl
      (by decide) (by decide),
   C8_dispatch_renders fsGood bGood ViewMode.comparison Region.lakeTana rfl rfl
      (by decide) (by decide),
   C8_dispatch_renders fsGood bGood ViewMode.insightsView Region.lakeTana rfl rfl
      (by decide) (by decide)⟩

/-- C9: a `metrics.json` that parses but lacks one of the six required keys
is accepted by the loader as-is (the bundle is returned with that mapping),
and the missing key surfaces as a `KeyError` only when the Overview view
runs — other views (e.g. Time Series) still render. -/
theorem C9_missing_metric_key_found_late (fs : FileSystem)
    (m : List (String × JNum)) (k : String)
    (hm : fs.metrics_json = some m)
    (hw : fs.water_ts_csv.isSome) (hs : fs.seasonal_csv.isSome)
    (hl : fs.lakes_csv.isSome) (hi : fs.insights_json.isSome)
    (ho : fs.lon_npy.isSome) (ha : fs.lat_npy.isSome) (hf : fs.freq_npy.isSome)
    (hpng : fs.compare_png = true)
    (hk : k ∈ requiredMetricKeys) (hmiss : m.lookup k = none) :
    ∃ b, load_dashboard_data fs = some b ∧ b.metrics = m
      ∧ (∃ k', k' ∈ requiredMetricKeys ∧ m.lookup k' = none ∧
          show_overview fs b = Except.error ("KeyError: " ++ k'))
      ∧ ∃ ws, renderView fs b ViewMode.timeSeries = Except.ok ws := by
  obtain ⟨w, hw'⟩ := Option.isSome_iff_exists.mp hw
  obtain ⟨s, hs'⟩ := Option.isSome_iff_exists.mp hs
  obtain ⟨l, hl'⟩ := Option.isSome_iff_exists.mp hl
  obtain ⟨i, hi'⟩ := Option.isSome_iff_exists.mp hi
  obtain ⟨o, ho'⟩ := Option.isSome_iff_exists.mp ho
  obtain ⟨a, ha'⟩ := Option.isSome_iff_exists.mp ha
  obtain ⟨f, hf'⟩ := Option.isSome_iff_exists.mp hf
  refine ⟨⟨w, s, l, m, i, ⟨o, a, f⟩⟩, ?_, rfl, ?_, ⟨_, rfl⟩⟩
  · simp [load_dashboard_data, hw', hs', hl', hm, hi', ho', ha', hf']
  by_cases c1 : m.lookup "current_water_extent" = none
  · exact ⟨"current_water_extent", by decide, c1, by simp [show_overview, hpng, c1]⟩
  obtain ⟨v1, hv1⟩ := Option.ne_none_iff_exists'.mp c1
  by_cases c2 : m.lookup "peak_water_extent" = none
  · exact ⟨"peak_water_extent", by decide, c2, by simp [show_overview, hpng, hv1, c2]⟩
  obtain ⟨v2, hv2⟩ := Option.ne_none_iff_exists'.mp c2
  by_cases c3 : m.lookup "percent_decline_since_1960" = none
  · exact ⟨"percent_decline_since_1960", by decide, c3,
      by simp [show_overview, hpng, hv1, hv2, c3]⟩
  obtain ⟨v3, hv3⟩ := Option.ne_none_iff_exists'.mp c3
  by_cases c4 : m.lookup "annual_change_rate" = none
  · exact ⟨"annual_change_rate", by decide, c4,
      by simp [show_overview, hpng, hv1, hv2, hv3, c4]⟩
  obtain ⟨v4, hv4⟩ := Option.ne_none_iff_exists'.mp c4
  by_cases c5 : m.lookup "population_impacted" = none
  · exact ⟨"population_impacted", by decide, c5,
      by simp [show_overview, hpng, hv1, hv2, hv3, hv4, c5]⟩
  obtain ⟨v5, hv5⟩ := Option.ne_none_iff_exists'.mp c5
  by_cases c6 : m.lookup "economic_impact_million_usd" = none
  · exact ⟨"economic_impact_million_usd", by decide, c6,
      by simp [show_overview, hpng, hv1, hv2, hv3, hv4, hv5, c6]⟩
  obtain ⟨v6, hv6⟩ := Option.ne_none_iff_exists'.mp c6
  exact absurd hmiss (by fin_cases hk <;> simp_all)

/-- The metrics fixture with `peak_water_extent` removed. -/
def metricsNoPeak : List (String × JNum) :=
  [ ("current_water_extent", .jint 3068),
    ("percent_decline_since_1960", .jfloat (-148) 1),
    ("annual_change_rate", .jfloat 1 1),
    ("population_impacted", .jint 15000000),
    ("economic_impact_million_usd", .jint 250) ]

/-- `fsGood` with a metrics file that lacks `peak_water_extent`. -/
def fsNoPeak : FileSystem := { fsGood with metrics_json := some metricsNoPeak }

/-- C9 witnessed: the loader accepts the key-poor metrics file and the
Overview view is the place the failure shows. -/
theorem C9_missing_metric_key_found_late_witness :
    ∃ b, load_dashboard_data fsNoPeak = some b ∧ b.metrics = metricsNoPeak
      ∧ (∃ k', k' ∈ requiredMetricKeys ∧ metricsNoPeak.lookup k' = none ∧
          show_overview fsNoPeak b = Except.error ("KeyError: " ++ k'))
      ∧ ∃ ws, renderView fsNoPeak b ViewMode.timeSeries = Except.ok ws :=
  C9_missing_metric_key_found_late fsNoPeak metricsNoPeak "peak_water_extent"
    rfl rfl rfl rfl rfl rfl rfl rfl rfl (by decide) (by decide)

/-- C10: when no `seasonal_data` row has year 2024, the Time Series view
still renders: the Seasonal Patterns chart gets an empty point list and the
two hard-coded labels are still shown. -/
theorem C10_empty_seasonal_filter_safe (fs : FileSystem) (b : Bundle)
    (h : ∀ r ∈ b.seasonal_data, r.year ≠ 2024) :
    renderView fs b ViewMode.timeSeries = Except.ok (show_time_series b)
    ∧ lineChartsOf (show_time_series b)
        = [("Seasonal Water Frequency Pattern (2024)", [])]
    ∧ deltaMetrics (show_time_series b)
        = [("Peak Season", "September", "Main rainy season"),
           ("Lowest Season", "June", "Pre-rainy season")] := by
  have hfil : b.seasonal_data.filter (fun r => r.year == 2024) = [] := by
    rw [List.filter_eq_nil_iff]
    intro a ha
    simpa using h a ha
  exact ⟨rfl, by simp [lineChartsOf, show_time_series, hfil], rfl⟩

/-- A bundle whose seasonal rows are all from 2023. -/
def bNo2024 : Bundle := { bGood with seasonal_data := [⟨2023, 12, .jfloat 81 1⟩] }

/-- C10 witnessed on a bundle with no 2024 seasonal row. -/
theorem C10_empty_seasonal_filter_safe_witness :
    renderView fsGood bNo2024 ViewMode.timeSeries = Except.ok (show_time_series bNo2024)
    ∧ lineChartsOf (show_time_series bNo2024)
        = [("Seasonal Water Frequency Pattern (2024)", [])]
    ∧ deltaMetrics (show_time_series bNo2024)
        = [("Peak Season", "September", "Main rainy season"),
           ("Lowest Season", "June", "Pre-rainy season")] :=
  C10_empty_seasonal_filter_safe fsGood bNo2024 (by decide)

end TanaDashboard
